import Mathlib

/-!
C++ Demo Mod: a shallow embedding of `src/main.cpp`.

The plugin exports a set of callbacks which the host game client calls.  Each
callback is embedded as a function on a `World`: the two mod-owned atomics
(`show_overlay`, `frame_count`), the host-owned game state the mod reads, and
the sequence of host primitives (`note`, `addline`, `render_rect`,
`render_line`, `render_text`) called so far.

Conventions of the embedding:

* a C `char` is a `Char` and text is a `List Char`; a `const char*` argument is
  the list of characters found at the pointer, read up to the first NUL (the
  end of the list counts as a terminator);
* `int` is an `Int` reduced into the 32-bit two's-complement range after every
  addition (`wrapInt32`); `uint32_t` and `uint16_t` are `Nat` reduced modulo
  `2 ^ 32` and `2 ^ 16`;
* the callbacks are run one at a time (the atomics are plain fields).
-/

namespace DemoMod

/-! ## Constants -/

def V_HP : Nat := 0
def V_MANA : Nat := 2
def V_WIS : Nat := 3
def V_INT : Nat := 4
def V_AGI : Nat := 5
def V_STR : Nat := 6
def V_MAX : Nat := 200
def DOT_TL : Int := 0

/-- Color helper (RGB 5-5-5): `(r << 10) | (g << 5) | b`, returned as a `uint16_t`. -/
def IRGB (r g b : Nat) : Nat :=
  ((r <<< 10) ||| (g <<< 5) ||| b) % 2 ^ 16

/-! ## Machine integers -/

/-- Reduction of an integer into the range of a 32-bit two's-complement `int`. -/
def wrapInt32 (i : Int) : Int :=
  (i + 2 ^ 31) % 2 ^ 32 - 2 ^ 31

/-- Addition on `int`.  Signed overflow is undefined in C++; the embedding takes the
two's-complement result, and the statements about coordinates assume no overflow. -/
def addInt (a b : Int) : Int :=
  wrapInt32 (a + b)

/-- Range of a 32-bit signed `int`. -/
def IsInt32 (i : Int) : Prop :=
  -2 ^ 31 ≤ i ∧ i < 2 ^ 31

instance (i : Int) : Decidable (IsInt32 i) := by
  unfold IsInt32; infer_instance

/-! ## C strings and `printf`-style formatting -/

/-- The NUL character terminating a C string. -/
def NUL : Char := Char.ofNat 0

/-- The C string held in a buffer: the characters before the first NUL. -/
def cstr (buf : List Char) : List Char :=
  buf.takeWhile (fun c => c != NUL)

/-- The libc `strcmp`: walks both strings until they differ or end, and returns the
difference of the two characters at that position (zero when both strings end). -/
def strcmp : List Char → List Char → Int
  | a :: as, b :: bs =>
    if a = b then (if a = NUL then 0 else strcmp as bs)
    else (a.toNat : Int) - (b.toNat : Int)
  | a :: _, [] => (a.toNat : Int)
  | [], b :: _ => - (b.toNat : Int)
  | [], [] => 0

/-- Decimal rendering of an unsigned number (`%u`). -/
def fmtUnsigned (n : Nat) : List Char :=
  Nat.toDigits 10 n

/-- Decimal rendering of a signed number (`%d`): a minus sign for negative values. -/
def fmtSigned (i : Int) : List Char :=
  if i < 0 then '-' :: Nat.toDigits 10 i.natAbs else Nat.toDigits 10 i.natAbs

/-- A variadic argument of a formatted call. -/
inductive Arg where
  | int (i : Int)
  | uint (n : Nat)
  | str (s : List Char)

/-- The `printf` family restricted to the conversions this file uses: `%d`, `%u` and
`%s` consume the next argument, every other character is copied. -/
def cformat : List Char → List Arg → List Char
  | '%' :: 'd' :: rest, Arg.int i :: args => fmtSigned i ++ cformat rest args
  | '%' :: 'u' :: rest, Arg.uint n :: args => fmtUnsigned n ++ cformat rest args
  | '%' :: 's' :: rest, Arg.str s :: args => cstr s ++ cformat rest args
  | c :: rest, args => c :: cformat rest args
  | [], _ => []

/-- Capacity of the `FormattedString` buffer. -/
def bufferSize : Nat := 256

/-- The class `FormattedString`: `snprintf` into `char buffer_[256]`, which keeps at most
255 characters of the formatted text (and the terminator). -/
def FormattedString (fmt : List Char) (args : List Arg) : List Char :=
  (cformat fmt args).take (bufferSize - 1)

/-! ## Host and mod state -/

/-- The host-owned game state and the host-supplied pure helpers the mod consults. -/
structure Host where
  hp : Int
  mana : Int
  gold : Int
  experience : Int
  value : Fin 2 → Fin V_MAX → Int
  username : List Char
  whitecolor : Nat
  textcolor : Nat
  healthcolor : Nat
  manacolor : Nat
  dotx : Int → Int
  doty : Int → Int
  exp2level : Int → Int

/-- One call of a host output primitive, with the text already formatted. -/
inductive HostCall where
  | note (text : List Char)
  | addline (text : List Char)
  | render_rect (sx sy ex ey : Int) (color : Nat)
  | render_line (fx fy tx ty : Int) (color : Nat)
  | render_text (sx sy : Int) (color : Nat) (flags : Int) (text : List Char)
deriving DecidableEq

/-- The mod state (`show_overlay`, `frame_count`), the host state, and the host calls
issued so far, oldest first. -/
structure World where
  host : Host
  show_overlay : Bool
  frame_count : Nat
  out : List HostCall

/-- The state at module load: `show_overlay{false}`, `frame_count{0}`, nothing emitted. -/
def World.initial (h : Host) : World :=
  { host := h, show_overlay := false, frame_count := 0, out := [] }

/-- Records one host call. -/
def World.call (w : World) (c : HostCall) : World :=
  { w with out := w.out ++ [c] }

/-- Host primitive `note(format, ...)`; its `int` result is ignored by every caller. -/
def note (w : World) (fmt : String) (args : List Arg) : World :=
  w.call (HostCall.note (cformat fmt.toList args))

/-- Host primitive `addline(format, ...)`: the host formats the line in the `printf`
manner; a length limit of its own, if it has one, is outside this file. -/
def addline (w : World) (fmt : String) (args : List Arg) : World :=
  w.call (HostCall.addline (cformat fmt.toList args))

/-- Host primitive `render_rect`. -/
def render_rect (w : World) (sx sy ex ey : Int) (color : Nat) : World :=
  w.call (HostCall.render_rect sx sy ex ey color)

/-- Host primitive `render_line`. -/
def render_line (w : World) (fx fy tx ty : Int) (color : Nat) : World :=
  w.call (HostCall.render_line fx fy tx ty color)

/-- Host primitive `render_text`; `text` is the C string passed. -/
def render_text (w : World) (sx sy : Int) (color : Nat) (flags : Int)
    (text : List Char) : World :=
  w.call (HostCall.render_text sx sy color flags text)

/-! ## Mod callbacks -/

def amod_version : String := "C++ Demo Mod 1.0.0"

def amod_init (w : World) : World :=
  note w "C++ Demo Mod initializing..." []

def amod_exit (w : World) : World :=
  note w "C++ Demo Mod shutting down." []

def amod_gamestart (w : World) : World :=
  let w := note w "C++ Demo Mod: Game started! Welcome, %s" [Arg.str w.host.username]
  addline w "C++ Demo Mod loaded. Type #hello for commands." []

def amod_tick (w : World) : World := w

def amod_frame (w : World) : World :=
  let w := { w with frame_count := (w.frame_count + 1) % 2 ^ 32 }
  if !w.show_overlay then w
  else
    let x := addInt (w.host.dotx DOT_TL) 10
    let y := addInt (w.host.doty DOT_TL) 10
    let wd : Int := 180
    let h : Int := 80
    let w := render_rect w x y (addInt x wd) (addInt y h) (IRGB 4 4 6)
    let border_color := IRGB 12 12 16
    let w := render_line w x y (addInt x wd) y border_color
    let w := render_line w x (addInt y h) (addInt x wd) (addInt y h) border_color
    let w := render_line w x y x (addInt y h) border_color
    let w := render_line w (addInt x wd) y (addInt x wd) (addInt y h) border_color
    let w := render_text w (addInt x 4) (addInt y 4) w.host.whitecolor 0 "C++ Demo Mod".toList
    let text_y := addInt y 20
    let w := render_text w (addInt x 4) text_y w.host.healthcolor 0
      (FormattedString "HP: %d / %d".toList
        [Arg.int w.host.hp, Arg.int (w.host.value 0 ⟨V_HP, by decide⟩)])
    let text_y := addInt text_y 14
    let w := render_text w (addInt x 4) text_y w.host.manacolor 0
      (FormattedString "Mana: %d / %d".toList
        [Arg.int w.host.mana, Arg.int (w.host.value 0 ⟨V_MANA, by decide⟩)])
    let text_y := addInt text_y 14
    let w := render_text w (addInt x 4) text_y (IRGB 31 31 0) 0
      (FormattedString "Gold: %d".toList [Arg.int w.host.gold])
    let text_y := addInt text_y 14
    render_text w (addInt x 4) text_y w.host.textcolor 0
      (FormattedString "Frame: %u".toList [Arg.uint w.frame_count])

def amod_mouse_move (w : World) (_x _y : Int) : World := w

def amod_mouse_click (w : World) (_x _y _button : Int) : World × Int := (w, 0)

def amod_keydown (w : World) (_key : Int) : World × Int := (w, 0)

def amod_keyup (w : World) (_key : Int) : World × Int := (w, 0)

def amod_client_cmd (w : World) (buf : List Char) : World × Int :=
  if strcmp buf "#hello".toList = 0 then
    let w := addline w "=== C++ Demo Mod Commands ===" []
    let w := addline w "#hello   - Show this help" []
    let w := addline w "#stats   - Display current stats" []
    let w := addline w "#overlay - Toggle HUD overlay" []
    (w, 1)
  else if strcmp buf "#stats".toList = 0 then
    let level := w.host.exp2level w.host.experience
    let w := addline w "=== Player Stats (from C++) ===" []
    let w := addline w "Level: %d  Experience: %d" [Arg.int level, Arg.int w.host.experience]
    let w := addline w "HP: %d/%d  Mana: %d/%d"
      [Arg.int w.host.hp, Arg.int (w.host.value 0 ⟨V_HP, by decide⟩),
       Arg.int w.host.mana, Arg.int (w.host.value 0 ⟨V_MANA, by decide⟩)]
    let w := addline w "STR: %d  AGI: %d  INT: %d  WIS: %d"
      [Arg.int (w.host.value 0 ⟨V_STR, by decide⟩), Arg.int (w.host.value 0 ⟨V_AGI, by decide⟩),
       Arg.int (w.host.value 0 ⟨V_INT, by decide⟩), Arg.int (w.host.value 0 ⟨V_WIS, by decide⟩)]
    let w := addline w "Gold: %d" [Arg.int w.host.gold]
    (w, 1)
  else if strcmp buf "#overlay".toList = 0 then
    let new_state := !w.show_overlay
    let w := { w with show_overlay := new_state }
    let w := addline w "Overlay: %s" [Arg.str (if new_state then "ON" else "OFF").toList]
    (w, 1)
  else
    (w, 0)

/-- A sample host used to evaluate the callbacks. -/
def sampleHost : Host :=
  { hp := 73, mana := 41, gold := 1250, experience := 9000,
    value := fun _ j => if j.val = V_HP then 100 else if j.val = V_MANA then 60 else 10 + j.val,
    username := "Ishtar".toList,
    whitecolor := 32767, textcolor := 25368, healthcolor := 31744, manacolor := 31,
    dotx := fun _ => 0, doty := fun _ => 0,
    exp2level := fun e => e / 1000 }


/-- A host whose values are all the most negative `int`. -/
def extremeHost : Host :=
  { sampleHost with
    hp := -2147483648, mana := -2147483648, gold := -2147483648,
    value := fun _ _ => -2147483648 }

/-! ## Observing the trace, and sequences of callbacks -/

/-- The primitive a host call went to. -/
inductive CallKind where
  | log
  | rect
  | line
  | text
deriving DecidableEq

def HostCall.kind : HostCall → CallKind
  | HostCall.note _ => CallKind.log
  | HostCall.addline _ => CallKind.log
  | HostCall.render_rect _ _ _ _ _ => CallKind.rect
  | HostCall.render_line _ _ _ _ _ => CallKind.line
  | HostCall.render_text _ _ _ _ _ => CallKind.text

/-- The texts of the `render_text` calls of a trace, in order. -/
def renderedTexts : List HostCall → List (List Char)
  | [] => []
  | HostCall.render_text _ _ _ _ t :: cs => t :: renderedTexts cs
  | _ :: cs => renderedTexts cs

/-- The positions of the `render_text` calls of a trace, in order. -/
def textPositions : List HostCall → List (Int × Int)
  | [] => []
  | HostCall.render_text sx sy _ _ _ :: cs => (sx, sy) :: textPositions cs
  | _ :: cs => textPositions cs

/-- The lines of the `addline` calls of a trace, in order. -/
def addedLines : List HostCall → List (List Char)
  | [] => []
  | HostCall.addline t :: cs => t :: addedLines cs
  | _ :: cs => addedLines cs

/-- One invocation of an exported callback by the host. -/
inductive Event where
  | init
  | exit
  | gamestart
  | tick
  | frame
  | mouse_move (x y : Int)
  | mouse_click (x y button : Int)
  | keydown (key : Int)
  | keyup (key : Int)
  | client_cmd (buf : List Char)

/-- The world after the host invokes one callback. -/
def step (w : World) : Event → World
  | Event.init => amod_init w
  | Event.exit => amod_exit w
  | Event.gamestart => amod_gamestart w
  | Event.tick => amod_tick w
  | Event.frame => amod_frame w
  | Event.mouse_move x y => amod_mouse_move w x y
  | Event.mouse_click x y b => (amod_mouse_click w x y b).1
  | Event.keydown k => (amod_keydown w k).1
  | Event.keyup k => (amod_keyup w k).1
  | Event.client_cmd buf => (amod_client_cmd w buf).1

/-- The world after the host invokes a sequence of callbacks, first to last. -/
def run (w : World) (evs : List Event) : World :=
  evs.foldl step w

/-- The event is a chat command whose text is `#overlay`. -/
def Event.isOverlayCmd : Event → Bool
  | Event.client_cmd buf => decide (cstr buf = "#overlay".toList)
  | _ => false

/-- The event is a rendered frame. -/
def Event.isFrame : Event → Bool
  | Event.frame => true
  | _ => false

/-! ## Lemmas on C strings -/

theorem toNat_inj {a b : Char} (h : a.toNat = b.toNat) : a = b := by
  rw [← Char.ofNat_toNat a, ← Char.ofNat_toNat b, h]

theorem toNat_eq_zero_iff (c : Char) : c.toNat = 0 ↔ c = NUL := by
  constructor
  · intro h
    exact toNat_inj (by rw [h]; rfl)
  · intro h
    rw [h]; rfl

theorem cstr_nil : cstr [] = [] := rfl

theorem cstr_cons_nul (as : List Char) : cstr (NUL :: as) = [] := by
  simp [cstr]

theorem cstr_cons_of_ne {a : Char} (h : a ≠ NUL) (as : List Char) :
    cstr (a :: as) = a :: cstr as := by
  simp [cstr, List.takeWhile_cons, h]

/-- The libc contract of `strcmp`: the result is zero exactly when the two C strings
(the characters before the first NUL) are equal. -/
theorem strcmp_eq_zero_iff (a b : List Char) : strcmp a b = 0 ↔ cstr a = cstr b := by
  induction a generalizing b with
  | nil =>
    cases b with
    | nil => simp [strcmp]
    | cons b bs =>
      by_cases hb : b = NUL
      · subst hb
        simp [strcmp, cstr_cons_nul, cstr_nil, (toNat_eq_zero_iff NUL).2 rfl]
      · simp [strcmp, cstr_cons_of_ne hb, cstr_nil, toNat_eq_zero_iff, hb]
  | cons a as ih =>
    cases b with
    | nil =>
      by_cases ha : a = NUL
      · subst ha
        simp [strcmp, cstr_cons_nul, cstr_nil, (toNat_eq_zero_iff NUL).2 rfl]
      · simp [strcmp, cstr_cons_of_ne ha, cstr_nil, toNat_eq_zero_iff, ha]
    | cons b bs =>
      by_cases hab : a = b
      · subst hab
        by_cases ha : a = NUL
        · subst ha
          simp [strcmp, cstr_cons_nul]
        · simp [strcmp, ha, cstr_cons_of_ne ha, ih]
      · have hne : (a.toNat : Int) - (b.toNat : Int) ≠ 0 := by
          intro h
          apply hab
          apply toNat_inj
          omega
        simp only [strcmp, hab, if_false, hne, false_iff]
        by_cases ha : a = NUL
        · subst ha
          have hb : b ≠ NUL := fun h => hab h.symm
          simp [cstr_cons_nul, cstr_cons_of_ne hb]
        · by_cases hb : b = NUL
          · subst hb
            simp [cstr_cons_nul, cstr_cons_of_ne ha]
          · simp [cstr_cons_of_ne ha, cstr_cons_of_ne hb, hab]

theorem cstr_hello : cstr "#hello".toList = "#hello".toList := by decide

theorem cstr_stats : cstr "#stats".toList = "#stats".toList := by decide

theorem cstr_overlay : cstr "#overlay".toList = "#overlay".toList := by decide

/-! ## The command dispatcher -/

theorem strcmp_hello (buf : List Char) :
    strcmp buf "#hello".toList = 0 ↔ cstr buf = "#hello".toList := by
  rw [strcmp_eq_zero_iff, cstr_hello]

theorem strcmp_stats (buf : List Char) :
    strcmp buf "#stats".toList = 0 ↔ cstr buf = "#stats".toList := by
  rw [strcmp_eq_zero_iff, cstr_stats]

theorem strcmp_overlay (buf : List Char) :
    strcmp buf "#overlay".toList = 0 ↔ cstr buf = "#overlay".toList := by
  rw [strcmp_eq_zero_iff, cstr_overlay]

/-- The effect of a command whose C string is `#overlay`. -/
theorem client_cmd_of_overlay (w : World) (buf : List Char)
    (h : cstr buf = "#overlay".toList) :
    amod_client_cmd w buf =
      ({ w with
          show_overlay := !w.show_overlay
          out := w.out ++ [HostCall.addline
            (if (!w.show_overlay) = true then "Overlay: ON".toList
             else "Overlay: OFF".toList)] }, 1) := by
  have e1 : ¬ strcmp buf "#hello".toList = 0 := by
    rw [strcmp_hello, h]; decide
  have e2 : ¬ strcmp buf "#stats".toList = 0 := by
    rw [strcmp_stats, h]; decide
  have e3 : strcmp buf "#overlay".toList = 0 := (strcmp_overlay buf).2 h
  unfold amod_client_cmd
  rw [if_neg e1, if_neg e2, if_pos e3]
  cases hs : w.show_overlay <;> simp [addline, World.call, cformat, cstr, NUL]

/-- A command whose C string is not `#overlay` leaves the overlay flag, the frame counter
and the host state as they were. -/
theorem client_cmd_of_not_overlay (w : World) (buf : List Char)
    (h : cstr buf ≠ "#overlay".toList) :
    (amod_client_cmd w buf).1.show_overlay = w.show_overlay ∧
    (amod_client_cmd w buf).1.frame_count = w.frame_count ∧
    (amod_client_cmd w buf).1.host = w.host := by
  have e3 : ¬ strcmp buf "#overlay".toList = 0 := by
    rw [strcmp_overlay]; exact h
  unfold amod_client_cmd
  by_cases e1 : strcmp buf "#hello".toList = 0
  · rw [if_pos e1]; exact ⟨rfl, rfl, rfl⟩
  · rw [if_neg e1]
    by_cases e2 : strcmp buf "#stats".toList = 0
    · rw [if_pos e2]; exact ⟨rfl, rfl, rfl⟩
    · rw [if_neg e2, if_neg e3]; exact ⟨rfl, rfl, rfl⟩

/-- A command that is none of the three literals falls through every comparison. -/
theorem client_cmd_of_unknown (w : World) (buf : List Char)
    (h1 : cstr buf ≠ "#hello".toList) (h2 : cstr buf ≠ "#stats".toList)
    (h3 : cstr buf ≠ "#overlay".toList) :
    amod_client_cmd w buf = (w, 0) := by
  have e1 : ¬ strcmp buf "#hello".toList = 0 := by
    rw [strcmp_hello]; exact h1
  have e2 : ¬ strcmp buf "#stats".toList = 0 := by
    rw [strcmp_stats]; exact h2
  have e3 : ¬ strcmp buf "#overlay".toList = 0 := by
    rw [strcmp_overlay]; exact h3
  unfold amod_client_cmd
  rw [if_neg e1, if_neg e2, if_neg e3]

/-- C1: a command whose text (the C string in the buffer) is none of `#hello`, `#stats`,
`#overlay` is declined: the call returns 0 and the world is exactly as before, so
nothing is emitted and neither the overlay flag nor the frame counter changes. -/
theorem client_cmd_unrecognized (w : World) (buf : List Char)
    (h1 : cstr buf ≠ "#hello".toList) (h2 : cstr buf ≠ "#stats".toList)
    (h3 : cstr buf ≠ "#overlay".toList) :
    (amod_client_cmd w buf).2 = 0 ∧
    (amod_client_cmd w buf).1.out = w.out ∧
    (amod_client_cmd w buf).1.show_overlay = w.show_overlay ∧
    (amod_client_cmd w buf).1.frame_count = w.frame_count ∧
    amod_client_cmd w buf = (w, 0) := by
  rw [client_cmd_of_unknown w buf h1 h2 h3]
  exact ⟨rfl, rfl, rfl, rfl, rfl⟩

/-- C1 at the extension `"#hello "` (a trailing blank) of a known command. -/
theorem client_cmd_unrecognized_witness :
    cstr "#hello ".toList ≠ "#hello".toList ∧
    cstr "#hello ".toList ≠ "#stats".toList ∧
    cstr "#hello ".toList ≠ "#overlay".toList ∧
    amod_client_cmd (World.initial sampleHost) "#hello ".toList
      = (World.initial sampleHost, 0) :=
  ⟨by decide, by decide, by decide,
    (client_cmd_unrecognized (World.initial sampleHost) "#hello ".toList
      (by decide) (by decide) (by decide)).2.2.2.2⟩

/-- Near misses of the three commands are declined: other case, leading or trailing
blanks, proper prefixes, extensions, and the empty command. -/
theorem client_cmd_near_misses (w : World) :
    ∀ s ∈ ["#Hello", "#HELLO", " #hello", "#hello ", "#hel", "#hello2", "#stat", "#Stats",
           "#stats\n", "#overla", "#OVERLAY", "#overlay on", "hello", "#", ""],
      amod_client_cmd w (String.toList s) = (w, 0) := by
  intro s hs
  simp only [List.mem_cons, List.mem_singleton, List.not_mem_nil, or_false] at hs
  rcases hs with h | h | h | h | h | h | h | h | h | h | h | h | h | h | h <;>
    subst h <;>
    exact client_cmd_of_unknown w _ (by decide) (by decide) (by decide)

/-- C2: `#overlay` returns 1, stores the negated flag, and emits exactly one line,
`Overlay: ON` when the new flag is true and `Overlay: OFF` when it is false; the frame
counter is untouched, and a second `#overlay` restores the original flag. -/
theorem overlay_cmd_toggles (w : World) :
    (amod_client_cmd w "#overlay".toList).2 = 1 ∧
    (amod_client_cmd w "#overlay".toList).1.show_overlay = (!w.show_overlay) ∧
    (amod_client_cmd w "#overlay".toList).1.out =
      w.out ++ [HostCall.addline
        (if (amod_client_cmd w "#overlay".toList).1.show_overlay = true
         then "Overlay: ON".toList else "Overlay: OFF".toList)] ∧
    (amod_client_cmd w "#overlay".toList).1.frame_count = w.frame_count ∧
    (amod_client_cmd (amod_client_cmd w "#overlay".toList).1
      "#overlay".toList).1.show_overlay = w.show_overlay := by
  have h := client_cmd_of_overlay w "#overlay".toList cstr_overlay
  have h2 := client_cmd_of_overlay (amod_client_cmd w "#overlay".toList).1
    "#overlay".toList cstr_overlay
  rw [h2, h]
  simp

/-- C6: `#hello` returns 1 and emits exactly four lines: the header
`=== C++ Demo Mod Commands ===`, then the descriptions of `#hello`, `#stats` and
`#overlay`; nothing else in the world changes. -/
theorem hello_cmd_help (w : World) :
    amod_client_cmd w "#hello".toList =
      ({ w with out := w.out ++
          [HostCall.addline "=== C++ Demo Mod Commands ===".toList,
           HostCall.addline "#hello   - Show this help".toList,
           HostCall.addline "#stats   - Display current stats".toList,
           HostCall.addline "#overlay - Toggle HUD overlay".toList] }, 1) := by
  have e1 : strcmp "#hello".toList "#hello".toList = 0 := by decide
  unfold amod_client_cmd
  rw [if_pos e1]
  simp [addline, World.call, cformat]

/-! ## The `#stats` command -/

/-- The world and result after `#stats`: five lines are appended to the trace. -/
theorem client_cmd_of_stats (w : World) :
    amod_client_cmd w "#stats".toList =
      ({ w with out := w.out ++
          [HostCall.addline "=== Player Stats (from C++) ===".toList,
           HostCall.addline ("Level: ".toList ++ fmtSigned (w.host.exp2level w.host.experience)
             ++ "  Experience: ".toList ++ fmtSigned w.host.experience),
           HostCall.addline ("HP: ".toList ++ fmtSigned w.host.hp ++ "/".toList
             ++ fmtSigned (w.host.value 0 ⟨V_HP, by decide⟩) ++ "  Mana: ".toList
             ++ fmtSigned w.host.mana ++ "/".toList
             ++ fmtSigned (w.host.value 0 ⟨V_MANA, by decide⟩)),
           HostCall.addline ("STR: ".toList ++ fmtSigned (w.host.value 0 ⟨V_STR, by decide⟩)
             ++ "  AGI: ".toList ++ fmtSigned (w.host.value 0 ⟨V_AGI, by decide⟩)
             ++ "  INT: ".toList ++ fmtSigned (w.host.value 0 ⟨V_INT, by decide⟩)
             ++ "  WIS: ".toList ++ fmtSigned (w.host.value 0 ⟨V_WIS, by decide⟩)),
           HostCall.addline ("Gold: ".toList ++ fmtSigned w.host.gold)] }, 1) := by
  have e1 : ¬ strcmp "#stats".toList "#hello".toList = 0 := by decide
  have e2 : strcmp "#stats".toList "#stats".toList = 0 := by decide
  unfold amod_client_cmd
  rw [if_neg e1, if_pos e2]
  simp [addline, World.call, cformat]

/-- C5 (as stated) fails: on the sample host `#stats` emits five lines, not four, and
the second of them is the level line, which contains neither `HP:` nor `Mana:`. -/
theorem stats_cmd_not_four_lines :
    addedLines (amod_client_cmd (World.initial sampleHost) "#stats".toList).1.out =
      ["=== Player Stats (from C++) ===".toList,
       "Level: 9  Experience: 9000".toList,
       "HP: 73/100  Mana: 41/60".toList,
       "STR: 16  AGI: 15  INT: 14  WIS: 13".toList,
       "Gold: 1250".toList] ∧
    (addedLines
      (amod_client_cmd (World.initial sampleHost) "#stats".toList).1.out).length ≠ 4 ∧
    ¬ ("HP:".toList <:+: "Level: 9  Experience: 9000".toList) ∧
    ¬ ("Mana:".toList <:+: "Level: 9  Experience: 9000".toList) := by
  refine ⟨by decide, by decide, by decide, by decide⟩

/-- C5 (amended): `#stats` returns 1 and emits exactly five lines: the header
`=== Player Stats (from C++) ===`, then `Level: <level>  Experience: <experience>` with
the level `exp2level(experience)`, then
`HP: <hp>/<value[0][V_HP]>  Mana: <mana>/<value[0][V_MANA]>`, then
`STR: <..>  AGI: <..>  INT: <..>  WIS: <..>` from `value[0]`, then `Gold: <gold>`, every
number being the decimal rendering of the current host value; the third line therefore
contains both `HP:` and `Mana:`, and neither the flag, the counter nor the host changes. -/
theorem stats_cmd_five_lines (w : World) :
    (amod_client_cmd w "#stats".toList).2 = 1 ∧
    (∃ l1 l2 l3 l4 l5,
      (amod_client_cmd w "#stats".toList).1.out =
        w.out ++ [HostCall.addline l1, HostCall.addline l2, HostCall.addline l3,
                  HostCall.addline l4, HostCall.addline l5] ∧
      l1 = "=== Player Stats (from C++) ===".toList ∧
      l2 = "Level: ".toList ++ fmtSigned (w.host.exp2level w.host.experience)
             ++ "  Experience: ".toList ++ fmtSigned w.host.experience ∧
      l3 = "HP: ".toList ++ fmtSigned w.host.hp ++ "/".toList
             ++ fmtSigned (w.host.value 0 ⟨V_HP, by decide⟩) ++ "  Mana: ".toList
             ++ fmtSigned w.host.mana ++ "/".toList
             ++ fmtSigned (w.host.value 0 ⟨V_MANA, by decide⟩) ∧
      l4 = "STR: ".toList ++ fmtSigned (w.host.value 0 ⟨V_STR, by decide⟩)
             ++ "  AGI: ".toList ++ fmtSigned (w.host.value 0 ⟨V_AGI, by decide⟩)
             ++ "  INT: ".toList ++ fmtSigned (w.host.value 0 ⟨V_INT, by decide⟩)
             ++ "  WIS: ".toList ++ fmtSigned (w.host.value 0 ⟨V_WIS, by decide⟩) ∧
      l5 = "Gold: ".toList ++ fmtSigned w.host.gold ∧
      "HP:".toList <:+: l3 ∧ "Mana:".toList <:+: l3) ∧
    (amod_client_cmd w "#stats".toList).1.show_overlay = w.show_overlay ∧
    (amod_client_cmd w "#stats".toList).1.frame_count = w.frame_count ∧
    (amod_client_cmd w "#stats".toList).1.host = w.host := by
  rw [client_cmd_of_stats]
  refine ⟨rfl, ⟨_, _, _, _, _, rfl, rfl, rfl, rfl, rfl, rfl, ?_, ?_⟩, rfl, rfl, rfl⟩
  · exact ⟨[], ' ' :: (fmtSigned w.host.hp ++ "/".toList
      ++ fmtSigned (w.host.value 0 ⟨V_HP, by decide⟩) ++ "  Mana: ".toList
      ++ fmtSigned w.host.mana ++ "/".toList
      ++ fmtSigned (w.host.value 0 ⟨V_MANA, by decide⟩)), by simp⟩
  · exact ⟨"HP: ".toList ++ fmtSigned w.host.hp ++ "/".toList
      ++ fmtSigned (w.host.value 0 ⟨V_HP, by decide⟩) ++ "  ".toList,
      ' ' :: (fmtSigned w.host.mana ++ "/".toList
      ++ fmtSigned (w.host.value 0 ⟨V_MANA, by decide⟩)), by simp⟩

/-! ## The frame callback -/

/-- With the overlay hidden, a frame only advances the counter. -/
theorem amod_frame_hidden (w : World) (h : w.show_overlay = false) :
    amod_frame w = { w with frame_count := (w.frame_count + 1) % 2 ^ 32 } := by
  simp [amod_frame, h]

/-- With the overlay shown, a frame advances the counter and appends ten draw calls. -/
theorem amod_frame_shown (w : World) (h : w.show_overlay = true) :
    amod_frame w =
      { w with
        frame_count := (w.frame_count + 1) % 2 ^ 32
        out := w.out ++
          [HostCall.render_rect (addInt (w.host.dotx DOT_TL) 10) (addInt (w.host.doty DOT_TL) 10)
             (addInt (addInt (w.host.dotx DOT_TL) 10) 180)
             (addInt (addInt (w.host.doty DOT_TL) 10) 80) (IRGB 4 4 6),
           HostCall.render_line (addInt (w.host.dotx DOT_TL) 10) (addInt (w.host.doty DOT_TL) 10)
             (addInt (addInt (w.host.dotx DOT_TL) 10) 180)
             (addInt (w.host.doty DOT_TL) 10) (IRGB 12 12 16),
           HostCall.render_line (addInt (w.host.dotx DOT_TL) 10)
             (addInt (addInt (w.host.doty DOT_TL) 10) 80)
             (addInt (addInt (w.host.dotx DOT_TL) 10) 180)
             (addInt (addInt (w.host.doty DOT_TL) 10) 80) (IRGB 12 12 16),
           HostCall.render_line (addInt (w.host.dotx DOT_TL) 10) (addInt (w.host.doty DOT_TL) 10)
             (addInt (w.host.dotx DOT_TL) 10)
             (addInt (addInt (w.host.doty DOT_TL) 10) 80) (IRGB 12 12 16),
           HostCall.render_line (addInt (addInt (w.host.dotx DOT_TL) 10) 180)
             (addInt (w.host.doty DOT_TL) 10)
             (addInt (addInt (w.host.dotx DOT_TL) 10) 180)
             (addInt (addInt (w.host.doty DOT_TL) 10) 80) (IRGB 12 12 16),
           HostCall.render_text (addInt (addInt (w.host.dotx DOT_TL) 10) 4)
             (addInt (addInt (w.host.doty DOT_TL) 10) 4) w.host.whitecolor 0
             "C++ Demo Mod".toList,
           HostCall.render_text (addInt (addInt (w.host.dotx DOT_TL) 10) 4)
             (addInt (addInt (w.host.doty DOT_TL) 10) 20) w.host.healthcolor 0
             (FormattedString "HP: %d / %d".toList
               [Arg.int w.host.hp, Arg.int (w.host.value 0 ⟨V_HP, by decide⟩)]),
           HostCall.render_text (addInt (addInt (w.host.dotx DOT_TL) 10) 4)
             (addInt (addInt (addInt (w.host.doty DOT_TL) 10) 20) 14) w.host.manacolor 0
             (FormattedString "Mana: %d / %d".toList
               [Arg.int w.host.mana, Arg.int (w.host.value 0 ⟨V_MANA, by decide⟩)]),
           HostCall.render_text (addInt (addInt (w.host.dotx DOT_TL) 10) 4)
             (addInt (addInt (addInt (addInt (w.host.doty DOT_TL) 10) 20) 14) 14)
             (IRGB 31 31 0) 0
             (FormattedString "Gold: %d".toList [Arg.int w.host.gold]),
           HostCall.render_text (addInt (addInt (w.host.dotx DOT_TL) 10) 4)
             (addInt (addInt (addInt (addInt (addInt (w.host.doty DOT_TL) 10) 20) 14) 14) 14)
             w.host.textcolor 0
             (FormattedString "Frame: %u".toList
               [Arg.uint ((w.frame_count + 1) % 2 ^ 32)])] } := by
  simp [amod_frame, h, render_rect, render_line, render_text, World.call]

/-- C3: a frame with the overlay flag set issues, in this order and with nothing else,
one `render_rect`, four `render_line` and five `render_text` calls; a frame with the
flag clear issues no host call at all. -/
theorem frame_draw_calls (w : World) :
    ∃ calls, (amod_frame w).out = w.out ++ calls ∧
      calls.map HostCall.kind =
        if w.show_overlay = true then
          [CallKind.rect, CallKind.line, CallKind.line, CallKind.line, CallKind.line,
           CallKind.text, CallKind.text, CallKind.text, CallKind.text, CallKind.text]
        else [] := by
  cases h : w.show_overlay
  · exact ⟨[], by rw [amod_frame_hidden w h]; simp, by simp⟩
  · rw [amod_frame_shown w h]
    exact ⟨_, rfl, by simp [HostCall.kind]⟩

/-- C4: every frame, shown or hidden, takes the counter from `n` to `(n + 1) mod 2^32`,
so the counter stays below `2^32` and steps from `2^32 - 1` to `0`. -/
theorem frame_count_increment (w : World) :
    (amod_frame w).frame_count = (w.frame_count + 1) % 2 ^ 32 ∧
    (amod_frame w).frame_count < 2 ^ 32 ∧
    (amod_frame { w with frame_count := 2 ^ 32 - 1 }).frame_count = 0 ∧
    (amod_frame { w with frame_count := 2 ^ 32 - 1 }).show_overlay = w.show_overlay := by
  have key : ∀ v : World, (amod_frame v).frame_count = (v.frame_count + 1) % 2 ^ 32 ∧
      (amod_frame v).show_overlay = v.show_overlay := by
    intro v
    cases h : v.show_overlay
    · rw [amod_frame_hidden v h]; exact ⟨rfl, h⟩
    · rw [amod_frame_shown v h]; exact ⟨rfl, h⟩
  refine ⟨(key w).1, ?_, ?_, (key _).2⟩
  · rw [(key w).1]; exact Nat.mod_lt _ (by norm_num)
  · rw [(key _).1]; norm_num

/-! ## Geometry of the overlay panel -/

/-- An addition whose exact result fits in an `int` is exact. -/
theorem addInt_eq (a b : Int) (h : IsInt32 (a + b)) : addInt a b = a + b := by
  unfold IsInt32 at h
  unfold addInt wrapInt32
  omega

/-- C8: when none of the coordinate additions overflows, a frame with the overlay shown
draws, with `X = dotx(DOT_TL) + 10` and `Y = doty(DOT_TL) + 10`, the rectangle
`(X, Y, X+180, Y+80)`, then its top, bottom, left and right sides, then the title at
`(X+4, Y+4)` and the four stat lines at `x = X+4`, `y = Y+20, Y+34, Y+48, Y+62`; every
text position lies strictly inside the rectangle. -/
theorem overlay_panel_geometry (w : World) (X Y : Int)
    (h : w.show_overlay = true)
    (hX : X = w.host.dotx DOT_TL + 10) (hY : Y = w.host.doty DOT_TL + 10)
    (hx : IsInt32 (w.host.dotx DOT_TL)) (hx2 : w.host.dotx DOT_TL + 190 < 2 ^ 31)
    (hy : IsInt32 (w.host.doty DOT_TL)) (hy2 : w.host.doty DOT_TL + 90 < 2 ^ 31) :
    (amod_frame w).out = w.out ++
      [HostCall.render_rect X Y (X + 180) (Y + 80) (IRGB 4 4 6),
       HostCall.render_line X Y (X + 180) Y (IRGB 12 12 16),
       HostCall.render_line X (Y + 80) (X + 180) (Y + 80) (IRGB 12 12 16),
       HostCall.render_line X Y X (Y + 80) (IRGB 12 12 16),
       HostCall.render_line (X + 180) Y (X + 180) (Y + 80) (IRGB 12 12 16),
       HostCall.render_text (X + 4) (Y + 4) w.host.whitecolor 0 "C++ Demo Mod".toList,
       HostCall.render_text (X + 4) (Y + 20) w.host.healthcolor 0
         (FormattedString "HP: %d / %d".toList
           [Arg.int w.host.hp, Arg.int (w.host.value 0 ⟨V_HP, by decide⟩)]),
       HostCall.render_text (X + 4) (Y + 20 + 14) w.host.manacolor 0
         (FormattedString "Mana: %d / %d".toList
           [Arg.int w.host.mana, Arg.int (w.host.value 0 ⟨V_MANA, by decide⟩)]),
       HostCall.render_text (X + 4) (Y + 20 + 14 + 14) (IRGB 31 31 0) 0
         (FormattedString "Gold: %d".toList [Arg.int w.host.gold]),
       HostCall.render_text (X + 4) (Y + 20 + 14 + 14 + 14) w.host.textcolor 0
         (FormattedString "Frame: %u".toList [Arg.uint ((w.frame_count + 1) % 2 ^ 32)])] ∧
    textPositions ((amod_frame w).out.drop w.out.length) =
      [(X + 4, Y + 4), (X + 4, Y + 20), (X + 4, Y + 34), (X + 4, Y + 48), (X + 4, Y + 62)] ∧
    ∀ p ∈ textPositions ((amod_frame w).out.drop w.out.length),
      X < p.1 ∧ p.1 < X + 180 ∧ Y < p.2 ∧ p.2 < Y + 80 := by
  have hx1 := hx.1
  have hy1 := hy.1
  have a1 : addInt (w.host.dotx DOT_TL) 10 = X := by
    rw [addInt_eq _ _ (by unfold IsInt32; omega), hX]
  have a2 : addInt (w.host.doty DOT_TL) 10 = Y := by
    rw [addInt_eq _ _ (by unfold IsInt32; omega), hY]
  have a3 : addInt X 180 = X + 180 := addInt_eq _ _ (by unfold IsInt32; omega)
  have a4 : addInt Y 80 = Y + 80 := addInt_eq _ _ (by unfold IsInt32; omega)
  have a5 : addInt X 4 = X + 4 := addInt_eq _ _ (by unfold IsInt32; omega)
  have a6 : addInt Y 4 = Y + 4 := addInt_eq _ _ (by unfold IsInt32; omega)
  have a7 : addInt Y 20 = Y + 20 := addInt_eq _ _ (by unfold IsInt32; omega)
  have a8 : addInt (Y + 20) 14 = Y + 20 + 14 := addInt_eq _ _ (by unfold IsInt32; omega)
  have a9 : addInt (Y + 20 + 14) 14 = Y + 20 + 14 + 14 :=
    addInt_eq _ _ (by unfold IsInt32; omega)
  have a10 : addInt (Y + 20 + 14 + 14) 14 = Y + 20 + 14 + 14 + 14 :=
    addInt_eq _ _ (by unfold IsInt32; omega)
  have hout := amod_frame_shown w h
  rw [a1, a2, a3, a4, a5, a6, a7, a8, a9, a10] at hout
  rw [hout]
  refine ⟨rfl, ?_, ?_⟩
  · simp only [List.drop_left, textPositions]
    simp only [List.cons.injEq, Prod.mk.injEq, and_true, true_and]
    omega
  · simp only [List.drop_left, textPositions]
    intro p hp
    simp only [List.mem_cons, List.mem_singleton, List.not_mem_nil, or_false] at hp
    rcases hp with hp | hp | hp | hp | hp <;> subst hp <;> simp only <;> omega

/-- C8 on the sample host with the overlay switched on (anchor at the origin). -/
theorem overlay_panel_geometry_witness :
    textPositions ((amod_frame { World.initial sampleHost with show_overlay := true }).out.drop
      (World.initial sampleHost).out.length) =
      [(14, 14), (14, 30), (14, 44), (14, 58), (14, 72)] :=
  (overlay_panel_geometry { World.initial sampleHost with show_overlay := true } 10 10
    rfl (by decide) (by decide) (by decide) (by decide) (by decide) (by decide)).2.1

/-! ## Formatted texts of the overlay -/

theorem toDigits_length_le (n e : Nat) (he : 0 < e) (h : n < 10 ^ e) :
    (Nat.toDigits 10 n).length ≤ e := by
  have := Nat.repr_length n e he h
  simpa [Nat.repr, List.asString, String.length] using this

theorem fmtUnsigned_length (n : Nat) (h : n < 2 ^ 32) : (fmtUnsigned n).length ≤ 10 := by
  unfold fmtUnsigned
  exact toDigits_length_le n 10 (by norm_num) (by omega)

theorem fmtSigned_length (i : Int) (h : IsInt32 i) : (fmtSigned i).length ≤ 11 := by
  unfold IsInt32 at h
  have hd : (Nat.toDigits 10 i.natAbs).length ≤ 10 :=
    toDigits_length_le _ 10 (by norm_num) (by omega)
  unfold fmtSigned
  split
  · simp only [List.length_cons]; omega
  · omega

theorem cformat_hp (a b : Int) :
    cformat "HP: %d / %d".toList [Arg.int a, Arg.int b] =
      "HP: ".toList ++ fmtSigned a ++ " / ".toList ++ fmtSigned b := by
  simp [cformat]

theorem cformat_mana (a b : Int) :
    cformat "Mana: %d / %d".toList [Arg.int a, Arg.int b] =
      "Mana: ".toList ++ fmtSigned a ++ " / ".toList ++ fmtSigned b := by
  simp [cformat]

theorem cformat_gold (a : Int) :
    cformat "Gold: %d".toList [Arg.int a] = "Gold: ".toList ++ fmtSigned a := by
  simp [cformat]

theorem cformat_frame (n : Nat) :
    cformat "Frame: %u".toList [Arg.uint n] = "Frame: ".toList ++ fmtUnsigned n := by
  simp [cformat]

theorem cformat_hp_length (a b : Int) (ha : IsInt32 a) (hb : IsInt32 b) :
    (cformat "HP: %d / %d".toList [Arg.int a, Arg.int b]).length ≤ 29 := by
  have h1 := fmtSigned_length a ha
  have h2 := fmtSigned_length b hb
  rw [cformat_hp]
  simp only [List.length_append]
  have e1 : ("HP: ".toList).length = 4 := rfl
  have e2 : (" / ".toList).length = 3 := rfl
  omega

theorem cformat_mana_length (a b : Int) (ha : IsInt32 a) (hb : IsInt32 b) :
    (cformat "Mana: %d / %d".toList [Arg.int a, Arg.int b]).length ≤ 31 := by
  have h1 := fmtSigned_length a ha
  have h2 := fmtSigned_length b hb
  rw [cformat_mana]
  simp only [List.length_append]
  have e1 : ("Mana: ".toList).length = 6 := rfl
  have e2 : (" / ".toList).length = 3 := rfl
  omega

theorem cformat_gold_length (a : Int) (ha : IsInt32 a) :
    (cformat "Gold: %d".toList [Arg.int a]).length ≤ 17 := by
  have h1 := fmtSigned_length a ha
  rw [cformat_gold]
  simp only [List.length_append]
  have e1 : ("Gold: ".toList).length = 6 := rfl
  omega

theorem cformat_frame_length (n : Nat) (hn : n < 2 ^ 32) :
    (cformat "Frame: %u".toList [Arg.uint n]).length ≤ 17 := by
  have h1 := fmtUnsigned_length n hn
  rw [cformat_frame]
  simp only [List.length_append]
  have e1 : ("Frame: ".toList).length = 7 := rfl
  omega

/-- A formatted text shorter than the buffer is stored whole. -/
theorem FormattedString_eq (fmt : List Char) (args : List Arg)
    (h : (cformat fmt args).length ≤ 255) : FormattedString fmt args = cformat fmt args := by
  unfold FormattedString bufferSize
  exact List.take_of_length_le h

/-- The texts drawn by a frame with the overlay shown, before any simplification. -/
theorem renderedTexts_frame_shown (w : World) (h : w.show_overlay = true) :
    renderedTexts ((amod_frame w).out.drop w.out.length) =
      ["C++ Demo Mod".toList,
       FormattedString "HP: %d / %d".toList
         [Arg.int w.host.hp, Arg.int (w.host.value 0 ⟨V_HP, by decide⟩)],
       FormattedString "Mana: %d / %d".toList
         [Arg.int w.host.mana, Arg.int (w.host.value 0 ⟨V_MANA, by decide⟩)],
       FormattedString "Gold: %d".toList [Arg.int w.host.gold],
       FormattedString "Frame: %u".toList [Arg.uint ((w.frame_count + 1) % 2 ^ 32)]] := by
  rw [amod_frame_shown w h]
  simp only [List.drop_left, renderedTexts]

/-! ## Sequences of callbacks -/

theorem step_host (w : World) (e : Event) : (step w e).host = w.host := by
  cases e with
  | frame =>
    cases h : w.show_overlay
    · simp [step, amod_frame_hidden w h]
    · simp [step, amod_frame_shown w h]
  | client_cmd buf =>
    by_cases hb : cstr buf = "#overlay".toList
    · simp [step, client_cmd_of_overlay w buf hb]
    · exact (client_cmd_of_not_overlay w buf hb).2.2
  | _ => rfl

theorem step_show_overlay (w : World) (e : Event) :
    (step w e).show_overlay = if e.isOverlayCmd = true then !w.show_overlay
      else w.show_overlay := by
  cases e with
  | frame =>
    cases h : w.show_overlay
    · simp [step, amod_frame_hidden w h, Event.isOverlayCmd, h]
    · simp [step, amod_frame_shown w h, Event.isOverlayCmd, h]
  | client_cmd buf =>
    by_cases hb : cstr buf = "#overlay".toList
    · simp [step, client_cmd_of_overlay w buf hb, Event.isOverlayCmd, hb]
    · have hd : Event.isOverlayCmd (Event.client_cmd buf) = false := by
        unfold Event.isOverlayCmd
        exact decide_eq_false hb
      rw [hd]
      simpa [step] using (client_cmd_of_not_overlay w buf hb).1
  | _ => rfl

theorem step_frame_count (w : World) (e : Event) :
    (step w e).frame_count = if e.isFrame = true then (w.frame_count + 1) % 2 ^ 32
      else w.frame_count := by
  cases e with
  | frame =>
    cases h : w.show_overlay
    · simp [step, amod_frame_hidden w h, Event.isFrame]
    · simp [step, amod_frame_shown w h, Event.isFrame]
  | client_cmd buf =>
    by_cases hb : cstr buf = "#overlay".toList
    · simp [step, client_cmd_of_overlay w buf hb, Event.isFrame]
    · have := (client_cmd_of_not_overlay w buf hb).2.1
      simp [step, Event.isFrame, this]
  | _ => rfl

theorem run_cons (w : World) (e : Event) (evs : List Event) :
    run w (e :: evs) = run (step w e) evs := rfl

theorem run_host (w : World) (evs : List Event) : (run w evs).host = w.host := by
  induction evs generalizing w with
  | nil => rfl
  | cons e es ih => rw [run_cons, ih, step_host]

theorem run_show_overlay (w : World) (evs : List Event) :
    (run w evs).show_overlay =
      xor w.show_overlay (decide (evs.countP Event.isOverlayCmd % 2 = 1)) := by
  induction evs generalizing w with
  | nil => simp [run]
  | cons e es ih =>
    rw [run_cons, ih, step_show_overlay, List.countP_cons]
    cases he : e.isOverlayCmd <;> cases hw : w.show_overlay <;>
      by_cases hc : List.countP Event.isOverlayCmd es % 2 = 1 <;>
      simp [hc] <;> omega

theorem run_frame_count (w : World) (evs : List Event) (hw : w.frame_count < 2 ^ 32) :
    (run w evs).frame_count = (w.frame_count + evs.countP Event.isFrame) % 2 ^ 32 := by
  induction evs generalizing w with
  | nil =>
    show w.frame_count = (w.frame_count + 0) % 2 ^ 32
    rw [Nat.add_zero, Nat.mod_eq_of_lt hw]
  | cons e es ih =>
    have hs := step_frame_count w e
    have hlt : (step w e).frame_count < 2 ^ 32 := by
      rw [hs]; split
      · exact Nat.mod_lt _ (by norm_num)
      · exact hw
    rw [run_cons, ih _ hlt, hs, List.countP_cons]
    cases he : e.isFrame <;> simp
    omega

/-! ## What the overlay shows -/

/-- C9: a frame with the overlay shown draws the title and then, in order,
`HP: <hp> / <value[0][V_HP]>`, `Mana: <mana> / <value[0][V_MANA]>`, `Gold: <gold>` and
`Frame: <c>`, each number being the decimal rendering of the host value in the world the
frame runs in and `c` the counter after this frame's increment, `(n + 1) mod 2^32`; in a
world reached from the initial one by a sequence of callbacks holding `k` frames, `c` is
`(k + 1) mod 2^32`. -/
theorem overlay_stat_texts (w : World) (h : w.show_overlay = true)
    (hhp : IsInt32 w.host.hp) (hmaxhp : IsInt32 (w.host.value 0 ⟨V_HP, by decide⟩))
    (hmana : IsInt32 w.host.mana) (hmaxmana : IsInt32 (w.host.value 0 ⟨V_MANA, by decide⟩))
    (hgold : IsInt32 w.host.gold) :
    renderedTexts ((amod_frame w).out.drop w.out.length) =
      ["C++ Demo Mod".toList,
       "HP: ".toList ++ fmtSigned w.host.hp ++ " / ".toList
         ++ fmtSigned (w.host.value 0 ⟨V_HP, by decide⟩),
       "Mana: ".toList ++ fmtSigned w.host.mana ++ " / ".toList
         ++ fmtSigned (w.host.value 0 ⟨V_MANA, by decide⟩),
       "Gold: ".toList ++ fmtSigned w.host.gold,
       "Frame: ".toList ++ fmtUnsigned ((w.frame_count + 1) % 2 ^ 32)] ∧
    (amod_frame w).frame_count = (w.frame_count + 1) % 2 ^ 32 ∧
    ∀ (h0 : Host) (evs : List Event), w = run (World.initial h0) evs →
      (renderedTexts ((amod_frame w).out.drop w.out.length)).getLast? =
        some ("Frame: ".toList ++ fmtUnsigned ((evs.countP Event.isFrame + 1) % 2 ^ 32)) := by
  have hlt : (w.frame_count + 1) % 2 ^ 32 < 2 ^ 32 := Nat.mod_lt _ (by norm_num)
  have e1 := FormattedString_eq _ _
    (le_trans (cformat_hp_length _ _ hhp hmaxhp) (by norm_num))
  have e2 := FormattedString_eq _ _
    (le_trans (cformat_mana_length _ _ hmana hmaxmana) (by norm_num))
  have e3 := FormattedString_eq _ _ (le_trans (cformat_gold_length _ hgold) (by norm_num))
  have e4 := FormattedString_eq _ _ (le_trans (cformat_frame_length _ hlt) (by norm_num))
  have ht := renderedTexts_frame_shown w h
  rw [e1, e2, e3, e4, cformat_hp, cformat_mana, cformat_gold, cformat_frame] at ht
  refine ⟨ht, ?_, ?_⟩
  · rw [amod_frame_shown w h]
  · intro h0 evs hw
    have hc : w.frame_count = (evs.countP Event.isFrame) % 2 ^ 32 := by
      rw [hw, run_frame_count _ _ (by simp [World.initial])]
      simp [World.initial]
    rw [ht, hc]
    simp only [List.getLast?_cons_cons, List.getLast?_singleton, Nat.add_mod_mod,
      Nat.mod_add_mod]

/-- C9 on the world reached from the initial one by two frames and then `#overlay`: the
next frame shows the sample host's values and `Frame: 3`. -/
theorem overlay_stat_texts_witness :
    renderedTexts ((amod_frame (run (World.initial sampleHost)
        [Event.frame, Event.frame, Event.client_cmd "#overlay".toList])).out.drop
      (run (World.initial sampleHost)
        [Event.frame, Event.frame, Event.client_cmd "#overlay".toList]).out.length) =
      ["C++ Demo Mod".toList, "HP: 73 / 100".toList, "Mana: 41 / 60".toList,
       "Gold: 1250".toList, "Frame: 3".toList] ∧
    (renderedTexts ((amod_frame (run (World.initial sampleHost)
        [Event.frame, Event.frame, Event.client_cmd "#overlay".toList])).out.drop
      (run (World.initial sampleHost)
        [Event.frame, Event.frame, Event.client_cmd "#overlay".toList]).out.length)).getLast? =
      some "Frame: 3".toList :=
  ⟨(overlay_stat_texts (run (World.initial sampleHost)
      [Event.frame, Event.frame, Event.client_cmd "#overlay".toList])
    (by decide) (by decide) (by decide) (by decide) (by decide) (by decide)).1,
   (overlay_stat_texts (run (World.initial sampleHost)
      [Event.frame, Event.frame, Event.client_cmd "#overlay".toList])
    (by decide) (by decide) (by decide) (by decide) (by decide) (by decide)).2.2
      sampleHost [Event.frame, Event.frame, Event.client_cmd "#overlay".toList] rfl⟩

/-- C10: for 32-bit host values and any counter, the four texts a frame formats are at
most 29, 31, 17 and 17 characters long, hence below the 256-byte buffer, and what the
frame hands to `render_text` is each formatted string in full. -/
theorem formatted_texts_fit (w : World) (h : w.show_overlay = true)
    (hhp : IsInt32 w.host.hp) (hmaxhp : IsInt32 (w.host.value 0 ⟨V_HP, by decide⟩))
    (hmana : IsInt32 w.host.mana) (hmaxmana : IsInt32 (w.host.value 0 ⟨V_MANA, by decide⟩))
    (hgold : IsInt32 w.host.gold) :
    renderedTexts ((amod_frame w).out.drop w.out.length) =
      ["C++ Demo Mod".toList,
       cformat "HP: %d / %d".toList
         [Arg.int w.host.hp, Arg.int (w.host.value 0 ⟨V_HP, by decide⟩)],
       cformat "Mana: %d / %d".toList
         [Arg.int w.host.mana, Arg.int (w.host.value 0 ⟨V_MANA, by decide⟩)],
       cformat "Gold: %d".toList [Arg.int w.host.gold],
       cformat "Frame: %u".toList [Arg.uint ((w.frame_count + 1) % 2 ^ 32)]] ∧
    (cformat "HP: %d / %d".toList
      [Arg.int w.host.hp, Arg.int (w.host.value 0 ⟨V_HP, by decide⟩)]).length ≤ 29 ∧
    (cformat "Mana: %d / %d".toList
      [Arg.int w.host.mana, Arg.int (w.host.value 0 ⟨V_MANA, by decide⟩)]).length ≤ 31 ∧
    (cformat "Gold: %d".toList [Arg.int w.host.gold]).length ≤ 17 ∧
    (cformat "Frame: %u".toList [Arg.uint ((w.frame_count + 1) % 2 ^ 32)]).length ≤ 17 ∧
    (∀ t ∈ renderedTexts ((amod_frame w).out.drop w.out.length),
      t.length ≤ 31 ∧ t.length < bufferSize) := by
  have hlt : (w.frame_count + 1) % 2 ^ 32 < 2 ^ 32 := Nat.mod_lt _ (by norm_num)
  have l1 := cformat_hp_length _ _ hhp hmaxhp
  have l2 := cformat_mana_length _ _ hmana hmaxmana
  have l3 := cformat_gold_length _ hgold
  have l4 := cformat_frame_length _ hlt
  have ht := renderedTexts_frame_shown w h
  rw [FormattedString_eq _ _ (le_trans l1 (by norm_num)),
    FormattedString_eq _ _ (le_trans l2 (by norm_num)),
    FormattedString_eq _ _ (le_trans l3 (by norm_num)),
    FormattedString_eq _ _ (le_trans l4 (by norm_num))] at ht
  refine ⟨ht, l1, l2, l3, l4, ?_⟩
  intro t htm
  rw [ht] at htm
  have h0 : ("C++ Demo Mod".toList).length = 12 := rfl
  simp only [List.mem_cons, List.mem_singleton, List.not_mem_nil, or_false] at htm
  unfold bufferSize
  rcases htm with e | e | e | e | e <;> subst e <;> omega

/-- C10 on the host whose values all render with eleven characters. -/
theorem formatted_texts_fit_witness :
    (cformat "Mana: %d / %d".toList
      [Arg.int (-2147483648), Arg.int (-2147483648)]).length ≤ 31 :=
  (formatted_texts_fit
    { World.initial extremeHost with show_overlay := true, frame_count := 3999999999 }
    rfl (by decide) (by decide) (by decide) (by decide) (by decide)).2.2.1

/-- The bound of 31 characters is attained. -/
theorem mana_text_length_attained :
    (cformat "Mana: %d / %d".toList
      [Arg.int (-2147483648), Arg.int (-2147483648)]).length = 31 := by
  decide

/-! ## Who writes what -/

/-- C7: the overlay flag starts false; a callback changes it exactly when it is a
chat command whose text is `#overlay`, which negates it, so every other callback
(including `#hello`, `#stats` and unknown commands) leaves it alone; no callback
changes the host state; and after any sequence of callbacks from the initial state the
flag is true exactly when the number of `#overlay` commands in the sequence is odd. -/
theorem overlay_flag_parity (h0 : Host) (evs : List Event) (w : World) (e : Event) :
    (World.initial h0).show_overlay = false ∧
    (step w e).show_overlay =
      (if e.isOverlayCmd = true then !w.show_overlay else w.show_overlay) ∧
    (step w e).host = w.host ∧
    (run (World.initial h0) evs).host = h0 ∧
    (run (World.initial h0) evs).show_overlay =
      decide (evs.countP Event.isOverlayCmd % 2 = 1) := by
  refine ⟨rfl, step_show_overlay w e, step_host w e, ?_, ?_⟩
  · rw [run_host]; rfl
  · rw [run_show_overlay]
    simp [World.initial]

end DemoMod
